import Mathlib

/-!
Shallow embedding of the BiteShare backend food router
(src/routes/foodRouter.js): document stores are functions from ids to
optional documents, request bodies are structures over a small model of
JavaScript primitive values, and each route handler becomes a pure Lean
function returning the HTTP status, the response message, the updated
stores, and the list of notification dispatches it triggered.
-/

namespace BiteShare

/-- Model of a JavaScript primitive value as it occurs in request bodies and
stored documents: a string, a finite number (modelled as an integer), the
floating-point NaN, or undefined. -/
inductive JSVal where
  | str (s : String)
  | num (n : Int)
  | nan
  | undef
deriving DecidableEq

/-- JavaScript truthiness of a primitive value: empty string, 0, NaN and
undefined are falsy. -/
def JSVal.truthy : JSVal → Bool
  | .str s => s != ""
  | .num n => n != 0
  | .nan => false
  | .undef => false

/-- JavaScript strict equality on primitive values; NaN compares unequal to
everything, including itself. -/
def jsEq : JSVal → JSVal → Bool
  | .str a, .str b => a == b
  | .num a, .num b => a == b
  | .undef, .undef => true
  | _, _ => false

/-- The JavaScript expression a OR b on primitive values: b when a is falsy. -/
def jsOr (a b : JSVal) : JSVal := if a.truthy then a else b

/-- True when a value is of JavaScript number type (a finite number or NaN). -/
def isJSNumber : JSVal → Bool
  | .num _ => true
  | .nan => true
  | _ => false

/-- Numeric value of a list of decimal digit characters. -/
def digitsVal (l : List Char) : Nat :=
  l.foldl (fun a c => a * 10 + (c.toNat - 48)) 0

/-- Model of the Number() coercion restricted to the values the routes feed
it: numbers are kept, NaN and undefined coerce to NaN, and a string is
parsed as an optionally signed decimal integer after trimming whitespace,
with the empty or all-whitespace string coercing to 0 and anything else
unparsable coercing to NaN. -/
def toNumJS : JSVal → JSVal
  | .num n => .num n
  | .nan => .nan
  | .undef => .nan
  | .str s =>
    let cs := (s.toList.dropWhile (fun c => c.isWhitespace)).reverse
    let cs := (cs.dropWhile (fun c => c.isWhitespace)).reverse
    match cs with
    | [] => .num 0
    | '-' :: rest =>
      if rest ≠ [] ∧ rest.all (fun c => c.isDigit) then .num (-(digitsVal rest : Int))
      else .nan
    | '+' :: rest =>
      if rest ≠ [] ∧ rest.all (fun c => c.isDigit) then .num (digitsVal rest)
      else .nan
    | l =>
      if l.all (fun c => c.isDigit) then .num (digitsVal l)
      else .nan

/-- Model of the JavaScript parseInt applied to an optional query-string
parameter: an absent parameter parses to NaN (`none`); a string is parsed by
skipping leading whitespace, reading an optional sign and then the leading
run of decimal digits, giving NaN (`none`) when no digit is found. -/
def parseIntJS : Option String → Option Int
  | none => none
  | some s =>
    let cs := s.toList.dropWhile (fun c => c.isWhitespace)
    match cs with
    | '-' :: rest =>
      let ds := rest.takeWhile (fun c => c.isDigit)
      if ds.isEmpty then none else some (-(digitsVal ds : Int))
    | '+' :: rest =>
      let ds := rest.takeWhile (fun c => c.isDigit)
      if ds.isEmpty then none else some (digitsVal ds)
    | l =>
      let ds := l.takeWhile (fun c => c.isDigit)
      if ds.isEmpty then none else some (digitsVal ds)

/-- The JavaScript expression parseIntResult OR defaultValue: the default is
used exactly when the parse result is falsy, that is NaN (`none`) or 0. -/
def jsOrNum (v : Option Int) (d : Int) : Int :=
  match v with
  | none => d
  | some n => if n == 0 then d else n

/-- Truthiness of an optional string (a request field that may be absent):
absent and the empty string are falsy. -/
def truthyOS : Option String → Bool
  | none => false
  | some s => s != ""

/-- The JavaScript expression a OR b on optional strings. -/
def jsOrStr (a b : Option String) : Option String :=
  if truthyOS a then a else b

/-- A timestamp split into its date part (days since an epoch) and the time
of day in milliseconds. Parsing a date string with new Date is modelled as
the identity on this structure, setHours(0,0,0,0) zeroes the time part, and
the date segment of toISOString is determined by the day field. -/
structure JSDate where
  day : Int
  msOfDay : Nat
deriving DecidableEq

/-- setHours(0,0,0,0): strip the time of day. -/
def JSDate.trunc (d : JSDate) : JSDate := ⟨d.day, 0⟩

/-- Chronological strict order on timestamps. -/
def JSDate.lt (a b : JSDate) : Bool :=
  a.day < b.day || (a.day == b.day && a.msOfDay < b.msOfDay)

/-- A document of the food collection. Field names follow the source;
quantity and price are JavaScript values because update-food writes the raw
request fields back while add-food writes coerced numbers. -/
structure Food where
  foodName : String
  foodImg : String
  location : String
  quantity : JSVal
  exDate : JSDate
  description : Option String
  note : Option String
  price : JSVal
  status : String
  userEmail : String
  userName : String
  createdAt : String
deriving DecidableEq

/-- A food collection keyed by document id. -/
def FoodStore := Nat → Option Food

/-- Request body of POST /add-food: the listing fields together with
whatever status the client may have supplied. -/
structure AddFoodInput where
  foodName : String
  foodImg : String
  location : String
  quantity : JSVal
  exDate : JSDate
  description : Option String
  note : Option String
  price : JSVal
  status : Option String
  userEmail : String
  userName : String
  createdAt : String
deriving DecidableEq

/-- POST /add-food: insert the spread request body with price and quantity
coerced through Number() and status overridden to Available. -/
def addFood (data : AddFoodInput) : Food :=
  { foodName := data.foodName
    foodImg := data.foodImg
    location := data.location
    quantity := toNumJS data.quantity
    exDate := data.exDate
    description := data.description
    note := data.note
    price := toNumJS data.price
    status := "Available"
    userEmail := data.userEmail
    userName := data.userName
    createdAt := data.createdAt }

/-- Request body of POST /request-food/:id: the requester email (field
named user in the source), the request date and an optional note. -/
structure RequestData where
  user : String
  currentDate : String
  note : Option String
deriving DecidableEq

/-- Payload handed to sendFoodRequestNotification by the request-food
handler. -/
structure FoodRequestEmail where
  donorEmail : String
  donorName : String
  foodName : String
  requesterEmail : String
  requestDate : String
  note : Option String
  quantity : JSVal
  location : String
deriving DecidableEq

/-- Outcome of POST /request-food/:id: HTTP status, response message, the
food store after the call, the requested collection after the call, and the
notification dispatches the call triggered. -/
structure RequestFoodResult where
  httpStatus : Nat
  message : String
  foods : FoodStore
  requests : List RequestData
  dispatches : List FoodRequestEmail

/-- POST /request-food/:id. The lookup, the self-request check, the
day-granularity expiry check, the unconditional insert into the requested
collection, the upsert-style status flip to Requested, and the notification
dispatch fired on insert acknowledgement regardless of whether the status
write modified the document. The store acknowledges every insert, as the
spec store contract assumes; modifiedCount of the status write is positive
exactly when the stored status was not already Requested. -/
def requestFood (foods : FoodStore) (requests : List RequestData)
    (id : Nat) (requestedData : RequestData) (now : JSDate) :
    RequestFoodResult :=
  match foods id with
  | none => ⟨404, "Food item not found", foods, requests, []⟩
  | some food =>
    if food.userEmail == requestedData.user then
      ⟨400, "You cannot request your own donated food.", foods, requests, []⟩
    else
      let expirationDate := food.exDate.trunc
      let currentDate := now.trunc
      if JSDate.lt expirationDate currentDate then
        ⟨400, "This food item has expired and cannot be requested",
          foods, requests, []⟩
      else
        let requests' := requests ++ [requestedData]
        let foods' : FoodStore := fun j =>
          if j = id then some { food with status := "Requested" } else foods j
        let dispatch : FoodRequestEmail :=
          { donorEmail := food.userEmail
            donorName := food.userName
            foodName := food.foodName
            requesterEmail := requestedData.user
            requestDate := requestedData.currentDate
            note := requestedData.note
            quantity := food.quantity
            location := food.location }
        if food.status != "Requested" then
          ⟨200, "Successfully updated status", foods', requests', [dispatch]⟩
        else
          ⟨200, "Failed to update status.", foods', requests', [dispatch]⟩

/-- Request body of PUT /update-food/:id. -/
structure UpdateFoodInput where
  foodImg : String
  foodName : String
  quantity : JSVal
  location : String
  exDate : JSDate
  note : Option String
  description : Option String
  price : JSVal
deriving DecidableEq

/-- The isUnchanged computation of PUT /update-food/:id: name, image,
location, quantity against Number(quantity), expiry date compared through
the date segment of toISOString, description OR note on both sides, and
price OR 0 on both sides. -/
def isUnchanged (existingFood : Food) (u : UpdateFoodInput) : Bool :=
  existingFood.foodName == u.foodName &&
  existingFood.foodImg == u.foodImg &&
  existingFood.location == u.location &&
  jsEq existingFood.quantity (toNumJS u.quantity) &&
  existingFood.exDate.day == u.exDate.day &&
  jsOrStr existingFood.description existingFood.note ==
    jsOrStr u.description u.note &&
  jsEq (jsOr existingFood.price (.num 0)) (jsOr u.price (.num 0))

/-- Outcome of PUT /update-food/:id. -/
structure UpdateFoodResult where
  httpStatus : Nat
  message : String
  foods : FoodStore

/-- PUT /update-food/:id: 404 when the document is absent, 400 with no
store write when isUnchanged holds, otherwise a $set of exactly foodImg,
foodName, quantity (raw), location, exDate, description (merged from
description OR note) and price (raw). -/
def updateFood (foods : FoodStore) (id : Nat) (u : UpdateFoodInput) :
    UpdateFoodResult :=
  match foods id with
  | none => ⟨404, "Food item not found", foods⟩
  | some existingFood =>
    if isUnchanged existingFood u then
      ⟨400, "No changes detected. Please update at least one field.", foods⟩
    else
      let newDescription := jsOrStr u.description u.note
      let updated : Food :=
        { existingFood with
          foodImg := u.foodImg
          foodName := u.foodName
          quantity := u.quantity
          location := u.location
          exDate := u.exDate
          description := newDescription
          price := u.price }
      ⟨200, "", fun j => if j = id then some updated else foods j⟩

/-- A document of the order collection, as created by POST /orders; the
updatedAt field only exists once PATCH /orders/:id has written it. -/
structure Order where
  foodName : String
  ownerEmail : String
  ownerName : String
  userEmail : String
  userName : String
  quantity : JSVal
  totalPrice : JSVal
  deliveryDate : JSVal
  address : JSVal
  description : Option String
  orderDate : String
  status : String
  updatedAt : Option String
deriving DecidableEq

/-- An order collection keyed by document id. -/
def OrderStore := Nat → Option Order

/-- Outcome of PATCH /orders/:id. -/
structure UpdateOrderResult where
  httpStatus : Nat
  message : String
  orders : OrderStore

/-- PATCH /orders/:id: a $set of the status and a fresh updatedAt
timestamp, answering 200 exactly when modifiedCount is positive, that is
when a document matched the id and the $set actually changed it; the 404
branch covers both no match and a matched document left unmodified. -/
def updateOrderStatus (orders : OrderStore) (id : Nat) (status : String)
    (now : String) : UpdateOrderResult :=
  match orders id with
  | none => ⟨404, "Order not found or status unchanged", orders⟩
  | some o =>
    let o' : Order := { o with status := status, updatedAt := some now }
    if o' = o then
      ⟨404, "Order not found or status unchanged", orders⟩
    else
      ⟨200, "Status updated successfully",
        fun j => if j = id then some o' else orders j⟩

/-- Request body of POST /orders (bulk order). -/
structure OrderInput where
  foodName : String
  ownerEmail : String
  ownerName : String
  userEmail : String
  userName : String
  quantity : JSVal
  totalPrice : JSVal
  deliveryDate : JSVal
  address : JSVal
  description : Option String
deriving DecidableEq

/-- Payload handed to sendBulkOrderNotification by the order handler; the
quantity and total price are the raw request fields, not the coerced
values stored on the order. -/
structure BulkOrderEmail where
  ownerEmail : String
  ownerName : String
  foodName : String
  customerName : String
  customerEmail : String
  quantity : JSVal
  deliveryDate : JSVal
  deliveryAddress : JSVal
  totalPrice : JSVal
  notes : Option String
deriving DecidableEq

/-- Outcome of POST /orders: HTTP status, response message, the order list
after the call (inserts append), and the dispatches triggered. -/
structure PlaceOrderResult where
  httpStatus : Nat
  message : String
  orders : List Order
  dispatches : List BulkOrderEmail

/-- POST /orders: required-field truthiness check, self-order check, then
insertion of the order document with coerced quantity and total price,
orderDate set to now and status Pending, followed by the notification
dispatch. Inserts are acknowledged, as the store contract assumes. -/
def placeOrder (orders : List Order) (orderData : OrderInput)
    (now : String) : PlaceOrderResult :=
  if !orderData.quantity.truthy || !orderData.deliveryDate.truthy ||
      !orderData.address.truthy then
    ⟨400, "Missing required fields", orders, []⟩
  else if orderData.ownerEmail == orderData.userEmail then
    ⟨400, "You cannot order your own food.", orders, []⟩
  else
    let order : Order :=
      { foodName := orderData.foodName
        ownerEmail := orderData.ownerEmail
        ownerName := orderData.ownerName
        userEmail := orderData.userEmail
        userName := orderData.userName
        quantity := toNumJS orderData.quantity
        totalPrice := toNumJS orderData.totalPrice
        deliveryDate := orderData.deliveryDate
        address := orderData.address
        description := orderData.description
        orderDate := now
        status := "Pending"
        updatedAt := none }
    let dispatch : BulkOrderEmail :=
      { ownerEmail := orderData.ownerEmail
        ownerName := orderData.ownerName
        foodName := orderData.foodName
        customerName := orderData.userName
        customerEmail := orderData.userEmail
        quantity := orderData.quantity
        deliveryDate := orderData.deliveryDate
        deliveryAddress := orderData.address
        totalPrice := orderData.totalPrice
        notes := orderData.description }
    ⟨200, "Order placed successfully", orders ++ [order], [dispatch]⟩

/-- Whether the first character list occurs contiguously inside the
second. -/
def listInfix (needle hay : List Char) : Bool :=
  match hay with
  | [] => needle.isEmpty
  | _ :: t => needle.isPrefixOf hay || listInfix needle t

/-- Case-insensitive substring match: the model of a case-insensitive
regular-expression filter applied with a literal pattern. -/
def containsCI (text pat : String) : Bool :=
  listInfix (pat.toList.map Char.toLower) (text.toList.map Char.toLower)

/-- The filter part of the query descriptor built by GET /all-foods from
the raw query parameters: each clause is added only when the parameter is
truthy. -/
structure ListingFilter where
  status : Option String
  location : Option String
  search : Option String
deriving DecidableEq

/-- Query construction of GET /all-foods (filter part). -/
def buildListingFilter (status location search : Option String) :
    ListingFilter :=
  { status := if truthyOS status then status else none
    location := if truthyOS location then location else none
    search := if truthyOS search then search else none }

/-- Document-store matching semantics of the built filter: top-level
clauses conjoin; the location clause is a case-insensitive substring match
on the location field; the search clause is the disjunction of
case-insensitive substring matches on the food name and on the location. -/
def matchesFilter (q : ListingFilter) (f : Food) : Bool :=
  (match q.status with
   | none => true
   | some s => f.status == s) &&
  (match q.location with
   | none => true
   | some l => containsCI f.location l) &&
  (match q.search with
   | none => true
   | some s => containsCI f.foodName s || containsCI f.location s)

/-- The pagination part of a query descriptor. -/
structure Pagination where
  page : Int
  pageSize : Int
  skip : Int
deriving DecidableEq

/-- Pagination construction shared by the browse handlers:
parseInt(page) OR 1 and parseInt(limit) OR the component default, with
skip derived from both. -/
def buildPagination (page limit : Option String) (defaultLimit : Int) :
    Pagination :=
  let pageNum := jsOrNum (parseIntJS page) 1
  let limitNum := jsOrNum (parseIntJS limit) defaultLimit
  ⟨pageNum, limitNum, (pageNum - 1) * limitNum⟩

/-- Pagination of GET /all-foods: default page size 12. -/
def listingsPagination (page limit : Option String) : Pagination :=
  buildPagination page limit 12

/-- Pagination of GET /orders: default page size 10. -/
def ordersPagination (page limit : Option String) : Pagination :=
  buildPagination page limit 10

/-- A sample available listing used to instantiate universally quantified
theorems at concrete values. -/
def sampleFood : Food :=
  { foodName := "Green Apple"
    foodImg := "img.png"
    location := "Sometown"
    quantity := JSVal.num 3
    exDate := ⟨100, 5⟩
    description := some "fresh"
    note := none
    price := JSVal.num 0
    status := "Available"
    userEmail := "donor@example.com"
    userName := "Donor"
    createdAt := "2025-01-01" }

/-- A sample expired listing for exercising the expiry branch. -/
def expiredFood : Food :=
  { sampleFood with exDate := ⟨10, 5⟩ }

/-- A single-document food store holding a given listing at id 0. -/
def singleFoodStore (f : Food) : FoodStore :=
  fun j => if j = 0 then some f else none

/-- A sample stored order whose status is Pending. -/
def sampleOrder : Order :=
  { foodName := "Green Apple"
    ownerEmail := "donor@example.com"
    ownerName := "Donor"
    userEmail := "buyer@example.com"
    userName := "Buyer"
    quantity := JSVal.num 2
    totalPrice := JSVal.num 10
    deliveryDate := JSVal.str "2025-02-01"
    address := JSVal.str "5 Main St"
    description := none
    orderDate := "2025-01-01"
    status := "Pending"
    updatedAt := some "2025-01-02" }

/-- A single-document order store holding a given order at id 0. -/
def singleOrderStore (o : Order) : OrderStore :=
  fun j => if j = 0 then some o else none

/-- A sample request body from a first requester. -/
def aliceReq : RequestData := ⟨"alice@example.com", "2025-01-15", none⟩

/-- A sample request body from a second, distinct requester. -/
def bobReq : RequestData := ⟨"bob@example.com", "2025-01-16", some "hi"⟩

/-- A sample bulk-order request body whose owner and customer coincide. -/
def selfOrderInput : OrderInput :=
  { foodName := "Green Apple"
    ownerEmail := "donor@example.com"
    ownerName := "Donor"
    userEmail := "donor@example.com"
    userName := "Donor"
    quantity := JSVal.num 2
    totalPrice := JSVal.num 10
    deliveryDate := JSVal.str "2025-02-01"
    address := JSVal.str "5 Main St"
    description := some "ring the bell" }

end BiteShare

namespace BiteShare

theorem toNumJS_isJSNumber (v : JSVal) : isJSNumber (toNumJS v) = true := by
  cases v with
  | num n => rfl
  | nan => rfl
  | undef => rfl
  | str s =>
    simp only [toNumJS]
    split
    · rfl
    · split <;> rfl
    · split <;> rfl
    · split <;> rfl

/-- C9: every listing created through POST /add-food is stored with status
Available and with price and quantity coerced through Number(), whatever
status, price or quantity the client supplied. -/
theorem addFood_always_available (d : AddFoodInput) :
    (addFood d).status = "Available" ∧
    (addFood d).price = toNumJS d.price ∧
    (addFood d).quantity = toNumJS d.quantity ∧
    isJSNumber (addFood d).price = true ∧
    isJSNumber (addFood d).quantity = true :=
  ⟨rfl, rfl, rfl, toNumJS_isJSNumber d.price, toNumJS_isJSNumber d.quantity⟩

/-- C7: a bulk order whose owner email equals the customer email is
rejected with the self-order message, inserts nothing and dispatches no
notification, provided the required fields are present (truthy). -/
theorem placeOrder_self_order (orders : List Order) (d : OrderInput)
    (now : String) (hq : d.quantity.truthy = true)
    (hd : d.deliveryDate.truthy = true) (ha : d.address.truthy = true)
    (hself : d.ownerEmail = d.userEmail) :
    placeOrder orders d now =
      ⟨400, "You cannot order your own food.", orders, []⟩ := by
  simp [placeOrder, hq, hd, ha, hself]

theorem placeOrder_self_order_witness :
    selfOrderInput.quantity.truthy = true ∧
    selfOrderInput.deliveryDate.truthy = true ∧
    selfOrderInput.address.truthy = true ∧
    selfOrderInput.ownerEmail = selfOrderInput.userEmail ∧
    placeOrder [] selfOrderInput "2025-01-10" =
      ⟨400, "You cannot order your own food.", [], []⟩ :=
  ⟨rfl, rfl, rfl, rfl,
    placeOrder_self_order [] selfOrderInput "2025-01-10" rfl rfl rfl rfl⟩

/-- C6: requesting a listing with the requester email equal to the listing
owner email always answers 400 with the self-request message and leaves
the food store, the requested collection and the dispatch list untouched,
whatever the other fields of the listing. -/
theorem requestFood_self_request (foods : FoodStore)
    (requests : List RequestData) (id : Nat) (f : Food) (r : RequestData)
    (now : JSDate) (hf : foods id = some f) (hown : r.user = f.userEmail) :
    requestFood foods requests id r now =
      ⟨400, "You cannot request your own donated food.", foods, requests,
        []⟩ := by
  simp [requestFood, hf, hown]

theorem requestFood_self_request_witness :
    singleFoodStore sampleFood 0 = some sampleFood ∧
    sampleFood.status = "Available" ∧
    (⟨"donor@example.com", "2025-01-15", none⟩ : RequestData).user =
      sampleFood.userEmail ∧
    requestFood (singleFoodStore sampleFood) [] 0
        ⟨"donor@example.com", "2025-01-15", none⟩ ⟨50, 0⟩ =
      ⟨400, "You cannot request your own donated food.",
        singleFoodStore sampleFood, [], []⟩ :=
  ⟨rfl, rfl, rfl,
    requestFood_self_request (singleFoodStore sampleFood) [] 0 sampleFood
      ⟨"donor@example.com", "2025-01-15", none⟩ ⟨50, 0⟩ rfl rfl⟩

/-- C5 counterexample: an expired listing requested by its own owner is
rejected with the self-request message, not the expired message, because
the self-request check runs before the expiry check; so expiry does not
dominate regardless of the requester. -/
theorem requestFood_expired_not_for_owner :
    expiredFood.exDate.day < (⟨20, 0⟩ : JSDate).day ∧
    singleFoodStore expiredFood 0 = some expiredFood ∧
    (requestFood (singleFoodStore expiredFood) [] 0
        ⟨"donor@example.com", "2025-01-15", none⟩ ⟨20, 0⟩).message =
      "You cannot request your own donated food." ∧
    (requestFood (singleFoodStore expiredFood) [] 0
        ⟨"donor@example.com", "2025-01-15", none⟩ ⟨20, 0⟩).message ≠
      "This food item has expired and cannot be requested" := by
  refine ⟨by decide, rfl, rfl, by decide⟩

/-- C5 (amended): a listing whose expiry date, at day granularity, is
strictly before the current date is rejected with the expired message for
every requester other than the listing owner, whatever the other listing
fields, with no request insertion, no status change and no dispatch. -/
theorem requestFood_expired (foods : FoodStore)
    (requests : List RequestData) (id : Nat) (f : Food) (r : RequestData)
    (now : JSDate) (hf : foods id = some f)
    (hexp : f.exDate.day < now.day) (hown : r.user ≠ f.userEmail) :
    requestFood foods requests id r now =
      ⟨400, "This food item has expired and cannot be requested", foods,
        requests, []⟩ := by
  have hbeq : (f.userEmail == r.user) = false := by
    simp only [beq_eq_false_iff_ne]
    exact fun e => hown e.symm
  simp [requestFood, hf, hbeq, JSDate.lt, JSDate.trunc, hexp]

theorem requestFood_expired_witness :
    singleFoodStore expiredFood 0 = some expiredFood ∧
    expiredFood.exDate.day < (⟨20, 0⟩ : JSDate).day ∧
    (⟨"alice@example.com", "2025-01-15", none⟩ : RequestData).user ≠
      expiredFood.userEmail ∧
    requestFood (singleFoodStore expiredFood) [] 0
        ⟨"alice@example.com", "2025-01-15", none⟩ ⟨20, 0⟩ =
      ⟨400, "This food item has expired and cannot be requested",
        singleFoodStore expiredFood, [], []⟩ :=
  ⟨rfl, by decide, by decide,
    requestFood_expired (singleFoodStore expiredFood) [] 0 expiredFood
      ⟨"alice@example.com", "2025-01-15", none⟩ ⟨20, 0⟩ rfl (by decide)
      (by decide)⟩

/-- C3 counterexample: a negative page or limit parameter is parsed to a
negative number, which is truthy, so it is used as-is instead of falling
back to the defaults: build with page -5 and limit -7 yields page -5 and
page size -7 on both the listing and the order paths. -/
theorem pagination_negative_not_defaulted :
    (listingsPagination (some "-5") (some "-7")).page = -5 ∧
    (listingsPagination (some "-5") (some "-7")).pageSize = -7 ∧
    (ordersPagination (some "-5") (some "-7")).page = -5 ∧
    (ordersPagination (some "-5") (some "-7")).pageSize = -7 ∧
    ((-5 : Int) ≠ 1) ∧ ((-7 : Int) ≠ 12) ∧ ((-7 : Int) ≠ 10) := by
  decide

/-- C3 (amended): pagination construction is total by definition; the page
defaults to 1 exactly when the page parameter is absent, unparsable
(parseInt gives NaN) or parses to 0, and otherwise the nonzero parse
result is used as-is, negative values included; the page size behaves the
same way around the defaults 12 (listings) and 10 (orders). -/
theorem buildPagination_defaults (page limit : Option String) :
    ((parseIntJS page = none ∨ parseIntJS page = some 0) →
      (listingsPagination page limit).page = 1 ∧
      (ordersPagination page limit).page = 1) ∧
    (∀ n : Int, parseIntJS page = some n → n ≠ 0 →
      (listingsPagination page limit).page = n ∧
      (ordersPagination page limit).page = n) ∧
    ((parseIntJS limit = none ∨ parseIntJS limit = some 0) →
      (listingsPagination page limit).pageSize = 12 ∧
      (ordersPagination page limit).pageSize = 10) ∧
    (∀ n : Int, parseIntJS limit = some n → n ≠ 0 →
      (listingsPagination page limit).pageSize = n ∧
      (ordersPagination page limit).pageSize = n) := by
  refine ⟨?_, ?_, ?_, ?_⟩
  · rintro (h | h) <;>
      simp [listingsPagination, ordersPagination, buildPagination, h,
        jsOrNum]
  · intro n hn hn0
    simp [listingsPagination, ordersPagination, buildPagination, hn,
      jsOrNum, hn0]
  · rintro (h | h) <;>
      simp [listingsPagination, ordersPagination, buildPagination, h,
        jsOrNum]
  · intro n hn hn0
    simp [listingsPagination, ordersPagination, buildPagination, hn,
      jsOrNum, hn0]

theorem buildPagination_defaults_witness :
    parseIntJS (some "abc") = none ∧
    parseIntJS (some "3") = some 3 ∧ ((3 : Int) ≠ 0) ∧
    ((listingsPagination (some "abc") (some "3")).page = 1 ∧
      (ordersPagination (some "abc") (some "3")).page = 1) ∧
    ((listingsPagination (some "abc") (some "3")).pageSize = 3 ∧
      (ordersPagination (some "abc") (some "3")).pageSize = 3) :=
  ⟨by decide, by decide, by decide,
    (buildPagination_defaults (some "abc") (some "3")).1 (Or.inl (by decide)),
    (buildPagination_defaults (some "abc") (some "3")).2.2.2 3 (by decide)
      (by decide)⟩

/-- C8: with both a search term and a location term supplied (and no
status filter), the built listing filter matches a record exactly when the
food name or the location contains the search term case-insensitively and,
simultaneously and independently, the location contains the location term
case-insensitively. -/
theorem matchesFilter_search_and_location (s l : String) (f : Food)
    (hs : s ≠ "") (hl : l ≠ "") :
    matchesFilter (buildListingFilter none (some l) (some s)) f =
      ((containsCI f.foodName s || containsCI f.location s) &&
        containsCI f.location l) := by
  have hs2 : (s != "") = true := by simp [hs]
  have hl2 : (l != "") = true := by simp [hl]
  simp [matchesFilter, buildListingFilter, truthyOS, hs2, hl2,
    Bool.and_comm]

theorem matchesFilter_search_and_location_witness :
    ("apple" ≠ "") ∧ ("town" ≠ "") ∧
    matchesFilter (buildListingFilter none (some "town") (some "apple"))
        sampleFood =
      ((containsCI sampleFood.foodName "apple" ||
          containsCI sampleFood.location "apple") &&
        containsCI sampleFood.location "town") ∧
    matchesFilter (buildListingFilter none (some "town") (some "apple"))
        sampleFood = true :=
  ⟨by decide, by decide,
    matchesFilter_search_and_location "apple" "town" sampleFood (by decide)
      (by decide),
    by decide⟩

/-- C4: updating a listing with incoming fields semantically identical to
the stored record — same name, image and location, quantity equal to
Number(quantity), expiry date equal at day granularity, description OR
note equal on both sides, and price OR 0 equal on both sides — answers 400
with the no-change message and performs no store write. -/
theorem updateFood_no_change (foods : FoodStore) (id : Nat) (f : Food)
    (u : UpdateFoodInput) (hf : foods id = some f)
    (hname : f.foodName = u.foodName) (himg : f.foodImg = u.foodImg)
    (hloc : f.location = u.location)
    (hqty : jsEq f.quantity (toNumJS u.quantity) = true)
    (hdate : f.exDate.day = u.exDate.day)
    (hdesc : jsOrStr f.description f.note = jsOrStr u.description u.note)
    (hprice : jsEq (jsOr f.price (JSVal.num 0))
      (jsOr u.price (JSVal.num 0)) = true) :
    updateFood foods id u =
      ⟨400, "No changes detected. Please update at least one field.",
        foods⟩ := by
  have hu : isUnchanged f u = true := by
    simp [isUnchanged, hname, himg, hloc, hqty, hdate, hdesc, hprice]
  simp [updateFood, hf, hu]

/-- An update body matching sampleFood, with the quantity supplied as a
string and the description moved to the note field. -/
def sameUpdateInput : UpdateFoodInput :=
  { foodImg := "img.png"
    foodName := "Green Apple"
    quantity := JSVal.str "3"
    location := "Sometown"
    exDate := ⟨100, 300⟩
    note := some "fresh"
    description := none
    price := JSVal.undef }

theorem updateFood_no_change_witness :
    singleFoodStore sampleFood 0 = some sampleFood ∧
    jsEq sampleFood.quantity (toNumJS sameUpdateInput.quantity) = true ∧
    sampleFood.exDate.day = sameUpdateInput.exDate.day ∧
    jsOrStr sampleFood.description sampleFood.note =
      jsOrStr sameUpdateInput.description sameUpdateInput.note ∧
    jsEq (jsOr sampleFood.price (JSVal.num 0))
      (jsOr sameUpdateInput.price (JSVal.num 0)) = true ∧
    updateFood (singleFoodStore sampleFood) 0 sameUpdateInput =
      ⟨400, "No changes detected. Please update at least one field.",
        singleFoodStore sampleFood⟩ :=
  ⟨rfl, by decide, by decide, by decide, by decide,
    updateFood_no_change (singleFoodStore sampleFood) 0 sampleFood
      sameUpdateInput rfl rfl rfl rfl (by decide) (by decide) (by decide)
      (by decide)⟩

/-- C10: a successful update-food write replaces exactly foodImg,
foodName, quantity, location, exDate, description and price on the stored
listing; its status, owner email, owner name, creation timestamp and note
field are unchanged, and every other document of the store is untouched. -/
theorem updateFood_frame (foods : FoodStore) (id : Nat) (f : Food)
    (u : UpdateFoodInput) (hf : foods id = some f)
    (hch : isUnchanged f u = false) :
    (updateFood foods id u).httpStatus = 200 ∧
    (∃ g, (updateFood foods id u).foods id = some g ∧
      g.status = f.status ∧ g.userEmail = f.userEmail ∧
      g.userName = f.userName ∧ g.createdAt = f.createdAt ∧
      g.note = f.note ∧
      g.foodImg = u.foodImg ∧ g.foodName = u.foodName ∧
      g.quantity = u.quantity ∧ g.location = u.location ∧
      g.exDate = u.exDate ∧
      g.description = jsOrStr u.description u.note ∧ g.price = u.price) ∧
    (∀ j, j ≠ id → (updateFood foods id u).foods j = foods j) := by
  refine ⟨?_, ?_, ?_⟩
  · simp [updateFood, hf, hch]
  · refine ⟨{ f with
      foodImg := u.foodImg
      foodName := u.foodName
      quantity := u.quantity
      location := u.location
      exDate := u.exDate
      description := jsOrStr u.description u.note
      price := u.price }, ?_, rfl, rfl, rfl, rfl, rfl, rfl, rfl, rfl, rfl,
      rfl, rfl, rfl⟩
    simp [updateFood, hf, hch]
  · intro j hj
    simp [updateFood, hf, hch, hj]

/-- An update body changing the location of sampleFood. -/
def movedUpdateInput : UpdateFoodInput :=
  { sameUpdateInput with location := "Otherville" }

theorem updateFood_frame_witness :
    singleFoodStore sampleFood 0 = some sampleFood ∧
    isUnchanged sampleFood movedUpdateInput = false ∧
    ((updateFood (singleFoodStore sampleFood) 0
        movedUpdateInput).httpStatus = 200 ∧
      (∃ g, (updateFood (singleFoodStore sampleFood) 0
          movedUpdateInput).foods 0 = some g ∧
        g.status = sampleFood.status ∧
        g.userEmail = sampleFood.userEmail ∧
        g.userName = sampleFood.userName ∧
        g.createdAt = sampleFood.createdAt ∧
        g.note = sampleFood.note ∧
        g.foodImg = movedUpdateInput.foodImg ∧
        g.foodName = movedUpdateInput.foodName ∧
        g.quantity = movedUpdateInput.quantity ∧
        g.location = movedUpdateInput.location ∧
        g.exDate = movedUpdateInput.exDate ∧
        g.description =
          jsOrStr movedUpdateInput.description movedUpdateInput.note ∧
        g.price = movedUpdateInput.price) ∧
      (∀ j, j ≠ 0 → (updateFood (singleFoodStore sampleFood) 0
          movedUpdateInput).foods j = singleFoodStore sampleFood j)) :=
  ⟨rfl, by decide,
    updateFood_frame (singleFoodStore sampleFood) 0 sampleFood
      movedUpdateInput rfl (by decide)⟩

/-- C2 counterexample: an order matched by its id whose stored status
already equals the new status and whose stored updatedAt equals the fresh
timestamp is left unmodified by the write, so the handler answers 404 even
though one row matched; NotFound is therefore not equivalent to zero rows
matched, and a matched same-status order can still be a NotFound
failure. -/
theorem updateOrderStatus_matched_404 :
    singleOrderStore sampleOrder 0 = some sampleOrder ∧
    sampleOrder.status = "Pending" ∧
    (updateOrderStatus (singleOrderStore sampleOrder) 0 "Pending"
        "2025-01-02").httpStatus = 404 := by
  refine ⟨rfl, rfl, by decide⟩

/-- C2 (amended): the handler writes the status and a fresh
updated-timestamp whenever a document matches and the write changes it,
and answers 404 exactly when zero rows were modified: either no order
matched the id, or the matched order already carried both the new status
and the identical updated-timestamp; in particular a matched order whose
status equals the new status still succeeds whenever the fresh timestamp
differs from the stored one. -/
theorem updateOrderStatus_modified_iff (orders : OrderStore) (id : Nat)
    (st now : String) :
    ((updateOrderStatus orders id st now).httpStatus = 404 ↔
      orders id = none ∨
        ∃ o, orders id = some o ∧ o.status = st ∧
          o.updatedAt = some now) ∧
    (∀ o, orders id = some o →
      ¬(o.status = st ∧ o.updatedAt = some now) →
      (updateOrderStatus orders id st now).httpStatus = 200 ∧
      (updateOrderStatus orders id st now).orders id =
        some { o with status := st, updatedAt := some now }) := by
  cases h : orders id with
  | none =>
    refine ⟨by simp [updateOrderStatus, h], ?_⟩
    intro o ho
    exact absurd ho (by simp)
  | some o =>
    have hrec : ({ o with status := st, updatedAt := some now } = o) ↔
        (o.status = st ∧ o.updatedAt = some now) := by
      cases o
      simp only [Order.mk.injEq, true_and]
      exact ⟨fun ⟨a, b⟩ => ⟨a.symm, b.symm⟩, fun ⟨a, b⟩ => ⟨a.symm, b.symm⟩⟩
    have hstep : updateOrderStatus orders id st now =
        if { o with status := st, updatedAt := some now } = o then
          ⟨404, "Order not found or status unchanged", orders⟩
        else
          ⟨200, "Status updated successfully", fun j =>
            if j = id then
              some { o with status := st, updatedAt := some now }
            else orders j⟩ := by
      simp [updateOrderStatus, h]
    by_cases hc : o.status = st ∧ o.updatedAt = some now
    · refine ⟨?_, ?_⟩
      · rw [hstep, if_pos (hrec.mpr hc)]
        exact ⟨fun _ => Or.inr ⟨o, rfl, hc⟩, fun _ => rfl⟩
      · intro o' ho' hne
        injection ho' with e
        subst e
        exact absurd hc hne
    · have hneq : ¬({ o with status := st, updatedAt := some now } = o) :=
        fun e => hc (hrec.mp e)
      refine ⟨?_, ?_⟩
      · rw [hstep, if_neg hneq]
        constructor
        · intro h200
          simp at h200
        rintro (hnone | ⟨o', ho', hst, hup⟩)
        · exact absurd hnone (by simp)
        · injection ho' with e
          subst e
          exact absurd ⟨hst, hup⟩ hc
      · intro o' ho' _
        injection ho' with e
        subst e
        rw [hstep, if_neg hneq]
        exact ⟨rfl, by simp⟩

theorem updateOrderStatus_modified_iff_witness :
    singleOrderStore sampleOrder 0 = some sampleOrder ∧
    sampleOrder.status = "Pending" ∧
    ¬(sampleOrder.status = "Pending" ∧
      sampleOrder.updatedAt = some "2025-01-09") ∧
    (updateOrderStatus (singleOrderStore sampleOrder) 0 "Pending"
        "2025-01-09").httpStatus = 200 ∧
    (updateOrderStatus (singleOrderStore sampleOrder) 0 "Pending"
        "2025-01-09").orders 0 =
      some { sampleOrder with
        status := "Pending"
        updatedAt := some "2025-01-09" } :=
  ⟨rfl, rfl, by decide,
    (updateOrderStatus_modified_iff (singleOrderStore sampleOrder) 0
        "Pending" "2025-01-09").2 sampleOrder rfl (by decide)⟩

theorem requestFood_ok (foods : FoodStore) (requests : List RequestData)
    (id : Nat) (f : Food) (r : RequestData) (now : JSDate)
    (hf : foods id = some f) (hown : r.user ≠ f.userEmail)
    (hexp : ¬ f.exDate.day < now.day) :
    (requestFood foods requests id r now).httpStatus = 200 ∧
    (requestFood foods requests id r now).foods =
      (fun j => if j = id then some { f with status := "Requested" }
        else foods j) ∧
    (requestFood foods requests id r now).requests = requests ++ [r] ∧
    (requestFood foods requests id r now).dispatches.length = 1 := by
  have hbeq : (f.userEmail == r.user) = false := by
    simp only [beq_eq_false_iff_ne]
    exact fun e => hown e.symm
  have hlt : JSDate.lt f.exDate.trunc now.trunc = false := by
    simp [JSDate.lt, JSDate.trunc, hexp]
  cases hst : (f.status != "Requested") <;>
    simp [requestFood, hf, hbeq, hlt, hst]

/-- C1: two sequential request-food calls against the same available,
unexpired listing by two distinct requesters, neither of them the owner,
both answer 200, each triggers exactly one notification dispatch, and the
listing ends with status Requested: the second call re-applies Requested
on the already-Requested listing without becoming an error. -/
theorem requestFood_two_sequential (foods : FoodStore)
    (requests : List RequestData) (id : Nat) (f : Food)
    (r1 r2 : RequestData) (now : JSDate)
    (hf : foods id = some f) (hs : f.status = "Available")
    (h1 : r1.user ≠ f.userEmail) (h2 : r2.user ≠ f.userEmail)
    (h12 : r1.user ≠ r2.user) (hexp : ¬ f.exDate.day < now.day) :
    (requestFood foods requests id r1 now).httpStatus = 200 ∧
    (requestFood (requestFood foods requests id r1 now).foods
        (requestFood foods requests id r1 now).requests id r2
        now).httpStatus = 200 ∧
    (requestFood (requestFood foods requests id r1 now).foods
        (requestFood foods requests id r1 now).requests id r2 now).foods
        id = some { f with status := "Requested" } ∧
    (requestFood foods requests id r1 now).dispatches.length = 1 ∧
    (requestFood (requestFood foods requests id r1 now).foods
        (requestFood foods requests id r1 now).requests id r2
        now).dispatches.length = 1 := by
  obtain ⟨ha1, hfoods1, hreq1, hd1⟩ :=
    requestFood_ok foods requests id f r1 now hf h1 hexp
  have hf2 : (requestFood foods requests id r1 now).foods id =
      some { f with status := "Requested" } := by
    rw [hfoods1]
    simp
  obtain ⟨ha2, hfoods2, hreq2, hd2⟩ :=
    requestFood_ok (requestFood foods requests id r1 now).foods
      (requestFood foods requests id r1 now).requests id
      { f with status := "Requested" } r2 now hf2 h2 hexp
  refine ⟨ha1, ha2, ?_, hd1, hd2⟩
  rw [hfoods2]
  simp

theorem requestFood_two_sequential_witness :
    singleFoodStore sampleFood 0 = some sampleFood ∧
    sampleFood.status = "Available" ∧
    aliceReq.user ≠ sampleFood.userEmail ∧
    bobReq.user ≠ sampleFood.userEmail ∧
    aliceReq.user ≠ bobReq.user ∧
    ¬ sampleFood.exDate.day < (⟨50, 0⟩ : JSDate).day ∧
    ((requestFood (singleFoodStore sampleFood) [] 0 aliceReq
        ⟨50, 0⟩).httpStatus = 200 ∧
      (requestFood (requestFood (singleFoodStore sampleFood) [] 0 aliceReq
          ⟨50, 0⟩).foods
        (requestFood (singleFoodStore sampleFood) [] 0 aliceReq
          ⟨50, 0⟩).requests 0 bobReq ⟨50, 0⟩).httpStatus = 200 ∧
      (requestFood (requestFood (singleFoodStore sampleFood) [] 0 aliceReq
          ⟨50, 0⟩).foods
        (requestFood (singleFoodStore sampleFood) [] 0 aliceReq
          ⟨50, 0⟩).requests 0 bobReq ⟨50, 0⟩).foods 0 =
        some { sampleFood with status := "Requested" } ∧
      (requestFood (singleFoodStore sampleFood) [] 0 aliceReq
        ⟨50, 0⟩).dispatches.length = 1 ∧
      (requestFood (requestFood (singleFoodStore sampleFood) [] 0 aliceReq
          ⟨50, 0⟩).foods
        (requestFood (singleFoodStore sampleFood) [] 0 aliceReq
          ⟨50, 0⟩).requests 0 bobReq ⟨50, 0⟩).dispatches.length = 1) :=
  ⟨rfl, rfl, by decide, by decide, by decide, by decide,
    requestFood_two_sequential (singleFoodStore sampleFood) [] 0 sampleFood
      aliceReq bobReq ⟨50, 0⟩ rfl rfl (by decide) (by decide) (by decide)
      (by decide)⟩

end BiteShare
